import Mathlib

/-!
Shallow embedding of the two program fragments in
src/x-pack/legacy/plugins/reporting/export_types/png/server/create_job/index.ts:
fragment (a), the PNG-report createJob payload constructor (lines 12-35), and
fragment (b), the i18n-check CLI orchestration script (lines 55-203) that
validates flags and drives three stages through the listr task runner.

Dynamically typed CLI flag values are embedded as JSVal (absent, boolean, or
string); the listr task runner (a third-party library, options taken verbatim
from the source: concurrent and exitOnError per list) is embedded by its
documented contract: sub-tasks of a sequential list run in order, a failing
sub-task stops the list when exitOnError is true and is skipped over when
exitOnError is false, collected errors make the finished list reject with a
ListrError carrying the error list.
-/

namespace I18nCheck

/-- Value of a CLI flag as the script sees it in JavaScript: absent
(undefined), boolean, or string. -/
inductive JSVal where
  | undef : JSVal
  | bool : Bool → JSVal
  | str : String → JSVal
  deriving DecidableEq, Repr

/-- JavaScript truthiness of a flag value: undefined and the empty string are
falsy, a boolean is itself, a non-empty string is truthy. -/
def JSVal.truthy : JSVal → Bool
  | .undef => false
  | .bool b => b
  | .str s => !(s == "")

/-- Embeds the JavaScript test v !== undefined (negated: v === undefined). -/
def JSVal.isUndefined : JSVal → Bool
  | .undef => true
  | _ => false

/-- Embeds the JavaScript test typeof v === .boolean.. -/
def JSVal.isBoolean : JSVal → Bool
  | .bool _ => true
  | _ => false

/-- The destructured flags of the run callback, source lines 64-72. -/
structure RunFlags where
  ignoreIncompatible : JSVal
  ignoreMissing : JSVal
  ignoreUnused : JSVal
  includeConfig : JSVal
  ignoreUntracked : JSVal
  fix : JSVal
  path : JSVal
  deriving DecidableEq, Repr

/-- Destructuring default, source line 70: fix = false when the flag is
absent; any present value is kept as is. -/
def defaultedFix (f : RunFlags) : JSVal :=
  match f.fix with
  | .undef => JSVal.bool false
  | v => v

/-- The four distinct validation failures raised by the run callback, in
source order (lines 75-103); each corresponds to one createFailError message. -/
inductive ValidationError where
  | incompatibleFlags : ValidationError
  | pathRequiresValue : ValidationError
  | fixCannotHaveValue : ValidationError
  | ignoreUntrackedCannotHaveValue : ValidationError
  deriving DecidableEq, Repr

/-- The argument validation of the run callback, source lines 75-103, with
the checks in source order. Returns the first failing check, none when all
checks pass. -/
def validateFlags (f : RunFlags) : Option ValidationError :=
  let fix := defaultedFix f
  if fix.truthy &&
      (!f.ignoreIncompatible.isUndefined || !f.ignoreUnused.isUndefined ||
        !f.ignoreMissing.isUndefined || !f.ignoreUntracked.isUndefined) then
    some ValidationError.incompatibleFlags
  else if f.path.isBoolean || f.includeConfig.isBoolean then
    some ValidationError.pathRequiresValue
  else if !fix.isBoolean then
    some ValidationError.fixCannotHaveValue
  else if !f.ignoreUntracked.isUndefined && !f.ignoreUntracked.isBoolean then
    some ValidationError.ignoreUntrackedCannotHaveValue
  else
    none

/-- Flags record with every flag absent; validation passes on it. -/
def noFlags : RunFlags :=
  ⟨JSVal.undef, JSVal.undef, JSVal.undef, JSVal.undef, JSVal.undef,
    JSVal.undef, JSVal.undef⟩

example : validateFlags noFlags = none := by decide

example :
    validateFlags { noFlags with fix := JSVal.bool true,
                                 ignoreUnused := JSVal.bool false } =
      some ValidationError.incompatibleFlags := by decide

/-- The options record passed to integrateLocaleFiles by each compatibility
sub-task, source lines 119-128 (the constant config and log fields are
omitted, they carry no flag-derived data). -/
structure IntegrateOptions where
  sourceFileName : String
  targetFileName : Option String
  dryRun : Bool
  ignoreIncompatible : Bool
  ignoreUnused : Bool
  ignoreMissing : Bool
  deriving DecidableEq, Repr

/-- Options computation of a compatibility sub-task for one translation path,
source lines 119-128: targetFileName only under fix, dryRun is the negation
of fix, and each pass-through flag is fix OR the coerced ignore flag. -/
def integrateOptionsFor (fix : Bool) (f : RunFlags) (translationsPath : String) :
    IntegrateOptions :=
  { sourceFileName := translationsPath
    targetFileName := if fix then some translationsPath else none
    dryRun := !fix
    ignoreIncompatible := fix || f.ignoreIncompatible.truthy
    ignoreUnused := fix || f.ignoreUnused.truthy
    ignoreMissing := fix || f.ignoreMissing.truthy }

/-- Observable steps of a run, recorded in execution order: the config load
(line 105) and one entry per attempted sub-task of each stage. A compatTask
entry carries the options its integrateLocaleFiles call receives. -/
inductive RunEvent where
  | configLoaded : RunEvent
  | scanTask : String → RunEvent
  | extractTask : Nat → RunEvent
  | compatTask : String → IntegrateOptions → RunEvent
  deriving DecidableEq, Repr

/-- Outcomes of the external collaborator calls a run performs, one resolver
per sub-task: none is success, some e is a failure with error e. The
translations list is the result of mergeConfigs (line 105). -/
structure Env where
  translations : List String
  scanOutcome : String → Option String
  extractOutcomes : List (Option String)
  compatOutcome : String → Option String

/-- A JavaScript error as the catch block of lines 180-196 inspects it: a
name, a message, and an optional structured list of sub-errors (none embeds
a missing errors property; some with an empty list embeds an empty array,
which is truthy in JavaScript). -/
structure JsError where
  name : String
  message : String
  errors : Option (List String)
  deriving DecidableEq, Repr

/-- Final disposition of a run. validationFail is a createFailError thrown
before any stage (the surrounding run helper is outside src and, per the
spec, prints the message and exits 1). ok is a normal return, exit code 0.
hardExit is the process.exit() call of line 186 after logging the listed
lines: immediate termination. aggregateFail is the createFailError thrown at
line 190 carrying the joined reporter entries, with nothing logged
individually. loggedErrors is the loop of lines 193-195 logging each
sub-error, after which the run returns with exit code 1. -/
inductive Disposition where
  | validationFail : ValidationError → Disposition
  | ok : Disposition
  | hardExit : List String → Disposition
  | aggregateFail : String → Disposition
  | loggedErrors : List String → Disposition
  deriving DecidableEq, Repr

/-- Result of the catch block: process.exitCode as set on entry (line 181)
and the disposition the block selects. -/
structure CatchResult where
  exitCode : Nat
  disposition : Disposition
  deriving DecidableEq, Repr

/-- Message logged at line 184 before a hard exit. -/
def unhandledLog : String := "Unhandled exception!"

/-- The catch block of source lines 180-196. process.exitCode is set to 1
first. An error without an errors property is logged as an unhandled
exception and the process is exited at once. A ListrError while the reporter
holds entries becomes one thrown aggregate failure, the reporter entries
joined by blank lines. Otherwise each sub-error is logged individually. -/
def catchBlock (error : JsError) (reporterErrors : List String) : CatchResult :=
  match error.errors with
  | none => { exitCode := 1
              disposition := Disposition.hardExit [unhandledLog, error.message] }
  | some es =>
      if error.name == "ListrError" && reporterErrors.length != 0 then
        { exitCode := 1
          disposition :=
            Disposition.aggregateFail (String.intercalate ("\n\n") reporterErrors) }
      else
        { exitCode := 1, disposition := Disposition.loggedErrors es }

/-- The hard-coded source paths of the scan stage, source line 134. -/
def srcCodePaths : List String := ["./src", "./packages", "./x-pack"]

/-- The ListrError a failed listr list rejects with, carrying the collected
sub-task errors. -/
def listrError (es : List String) : JsError :=
  { name := "ListrError", message := "Something went wrong", errors := some es }

/-- Enabling guard of the scan stage, source line 150: the stage runs only
when the ignore-untracked flag is falsy. -/
def scanEnabledFor (f : RunFlags) : Bool := !f.ignoreUntracked.truthy

/-- Modelled from the spec: extractUntrackedMessages (imported from the i18n
tasks module, which is not under src) records each failure in the shared
reporter and resolves, so every remaining source path of the scan stage is
still attempted and the scan stage itself never rejects. Given the per-path
outcomes, the reporter after the scan stage holds the errors of the failing
paths in path order; a disabled stage leaves the reporter empty. -/
def reporterAfterScan (f : RunFlags) (env : Env) : List String :=
  if scanEnabledFor f then srcCodePaths.filterMap env.scanOutcome else []

/-- Sub-task events of the scan stage: one per source path, in order, when
the stage is enabled (sequential inner list, source lines 136-155). -/
def scanEventsFor (f : RunFlags) : List RunEvent :=
  if scanEnabledFor f then srcCodePaths.map RunEvent.scanTask else []

/-- Errors collected by the extraction stage: its inner list runs with
exitOnError false (source line 160), so every sub-task is attempted and the
failures are collected. -/
def extractErrorsOf (env : Env) : List String := env.extractOutcomes.filterMap id

/-- Sub-task events of the extraction stage: every sub-task of
extractDefaultMessages is attempted, exitOnError being false (line 160). -/
def extractEventsFor (env : Env) : List RunEvent :=
  (List.range env.extractOutcomes.length).map RunEvent.extractTask

/-- Errors collected by the compatibility stage: concurrent inner list with
exitOnError false (source line 167), every translation path is attempted. -/
def compatErrorsOf (env : Env) : List String :=
  env.translations.filterMap env.compatOutcome

/-- Sub-task events of the compatibility stage, one per translation path
(source lines 115-132), each carrying the options of its
integrateLocaleFiles call. -/
def compatEventsFor (f : RunFlags) (env : Env) : List RunEvent :=
  env.translations.map
    (fun p => RunEvent.compatTask p (integrateOptionsFor (defaultedFix f).truthy f p))

/-- Events of a run that reached the extraction stage but not the
compatibility stage: config load, then the scan events, then the extraction
events (outer list sequential, source lines 146-175). -/
def preCompatEvents (f : RunFlags) (env : Env) : List RunEvent :=
  RunEvent.configLoaded :: (scanEventsFor f ++ extractEventsFor env)

/-- Result of a whole run: the ordered events, the final reporter contents,
the process exit code, and the disposition. -/
structure RunResult where
  events : List RunEvent
  reporter : List String
  exitCode : Nat
  disposition : Disposition
  deriving DecidableEq, Repr

/-- The stages and the catch block for a run that passed validation and
loaded a config with at least one translation path. The outer list is
sequential with exitOnError true (lines 171-174): a failing extraction stage
rejects with its collected errors and the compatibility stage is never
started; a failing compatibility stage rejects with its own collected
errors. The rejection is handed to the catch block together with the
reporter. -/
def runCore (f : RunFlags) (env : Env) : RunResult :=
  if extractErrorsOf env = [] then
    if compatErrorsOf env = [] then
      { events := preCompatEvents f env ++ compatEventsFor f env
        reporter := reporterAfterScan f env, exitCode := 0
        disposition := Disposition.ok }
    else
      { events := preCompatEvents f env ++ compatEventsFor f env
        reporter := reporterAfterScan f env
        exitCode :=
          (catchBlock (listrError (compatErrorsOf env)) (reporterAfterScan f env)).exitCode
        disposition :=
          (catchBlock (listrError (compatErrorsOf env)) (reporterAfterScan f env)).disposition }
  else
    { events := preCompatEvents f env
      reporter := reporterAfterScan f env
      exitCode :=
        (catchBlock (listrError (extractErrorsOf env)) (reporterAfterScan f env)).exitCode
      disposition :=
        (catchBlock (listrError (extractErrorsOf env)) (reporterAfterScan f env)).disposition }

/-- The whole run callback, source lines 62-197: validate the flags (before
anything else), load the config (line 105), return at once when it has no
translation paths (lines 107-109), otherwise run the three stages and, on a
rejection, the catch block. -/
def runI18nCheck (f : RunFlags) (env : Env) : RunResult :=
  match validateFlags f with
  | some e =>
      { events := [], reporter := [], exitCode := 1
        disposition := Disposition.validationFail e }
  | none =>
      if env.translations = [] then
        { events := [RunEvent.configLoaded], reporter := []
          exitCode := 0, disposition := Disposition.ok }
      else
        runCore f env

end I18nCheck

namespace PngCreateJob

/-- Job parameters destructured by createJob, source line 16. Layout data is
opaque to createJob and embedded as a string. -/
structure JobParamsPNG where
  objectType : String
  title : String
  relativeUrl : String
  browserTimezone : String
  layout : String
  deriving DecidableEq, Repr

/-- The slice of the request createJob reads, source line 31: getBasePath. -/
structure RequestFacade where
  basePath : String
  deriving DecidableEq, Repr

/-- Effectful steps createJob performs, in order: the header encryption of
line 20, then the validateUrls call of line 22 with its argument list. -/
inductive CreateJobStep where
  | encryptHeaders : CreateJobStep
  | validateUrlsCall : List String → CreateJobStep
  deriving DecidableEq, Repr

/-- The object createJob returns, source lines 24-33. -/
structure PngJobPayload where
  objectType : String
  title : String
  relativeUrl : String
  headers : String
  browserTimezone : String
  layout : String
  basePath : String
  forceNow : String
  deriving DecidableEq, Repr

/-- createJob, source lines 15-34. The encryption routine, the URL validity
predicate and the clock are collaborators outside src and are passed in as
parameters: encrypt stands for crypto.encrypt, urlOk for the validateUrls
check (which throws on an invalid URL, embedded as a none result), and now
for new Date().toISOString(). The step trace records that the headers are
encrypted first and the relative URL validated second; on success the
returned payload copies the inputs, stores the encrypted headers, the base
path of the request, and the timestamp. -/
def createJob (encrypt : String → String) (urlOk : String → Bool) (now : String)
    (params : JobParamsPNG) (headers : String) (request : RequestFacade) :
    List CreateJobStep × Option PngJobPayload :=
  let serializedEncryptedHeaders := encrypt headers
  let steps := [CreateJobStep.encryptHeaders,
    CreateJobStep.validateUrlsCall [params.relativeUrl]]
  if urlOk params.relativeUrl then
    (steps, some
      { objectType := params.objectType
        title := params.title
        relativeUrl := params.relativeUrl
        headers := serializedEncryptedHeaders
        browserTimezone := params.browserTimezone
        layout := params.layout
        basePath := request.basePath
        forceNow := now })
  else
    (steps, none)

end PngCreateJob

namespace I18nCheck

theorem JSVal.isUndefined_eq_false_of_ne {v : JSVal} (h : v ≠ JSVal.undef) :
    v.isUndefined = false := by
  cases v with
  | undef => exact absurd rfl h
  | bool b => rfl
  | str s => rfl

/-- Environment in which every collaborator call succeeds and the config has
no translation paths. -/
def emptyEnv : Env :=
  { translations := [], scanOutcome := fun _ => none, extractOutcomes := []
    compatOutcome := fun _ => none }

/-- Claim C4: whenever the fix flag is true and any of the four ignore flags
is explicitly set (not undefined, whatever its value), validation fails with
the incompatible-flags error, before any stage runs and before the config is
loaded (the run records no event at all, not even the config load). -/
theorem c4_fix_with_ignore_rejected (f : RunFlags) (env : Env)
    (hfix : f.fix = JSVal.bool true)
    (h : f.ignoreIncompatible ≠ JSVal.undef ∨ f.ignoreUnused ≠ JSVal.undef ∨
      f.ignoreMissing ≠ JSVal.undef ∨ f.ignoreUntracked ≠ JSVal.undef) :
    validateFlags f = some ValidationError.incompatibleFlags ∧
    (runI18nCheck f env).events = [] ∧
    (runI18nCheck f env).disposition =
      Disposition.validationFail ValidationError.incompatibleFlags := by
  have hval : validateFlags f = some ValidationError.incompatibleFlags := by
    rcases h with h | h | h | h <;>
      simp [validateFlags, defaultedFix, hfix, JSVal.truthy,
        JSVal.isUndefined_eq_false_of_ne h]
  exact ⟨hval, by simp [runI18nCheck, hval], by simp [runI18nCheck, hval]⟩

/-- Flags with fix set to boolean true and ignore-unused explicitly set to
boolean false. -/
def c4Flags : RunFlags :=
  { noFlags with fix := JSVal.bool true, ignoreUnused := JSVal.bool false }

theorem c4_fix_with_ignore_rejected_witness :
    c4Flags.fix = JSVal.bool true ∧
    (c4Flags.ignoreIncompatible ≠ JSVal.undef ∨ c4Flags.ignoreUnused ≠ JSVal.undef ∨
      c4Flags.ignoreMissing ≠ JSVal.undef ∨ c4Flags.ignoreUntracked ≠ JSVal.undef) ∧
    (validateFlags c4Flags = some ValidationError.incompatibleFlags ∧
      (runI18nCheck c4Flags emptyEnv).events = [] ∧
      (runI18nCheck c4Flags emptyEnv).disposition =
        Disposition.validationFail ValidationError.incompatibleFlags) :=
  ⟨by decide, by decide,
    c4_fix_with_ignore_rejected c4Flags emptyEnv (by decide) (by decide)⟩

/-- Claim C10: when fix holds a truthy non-boolean value (a non-empty
string) and at least one ignore flag is explicitly set, validation fails
with the incompatible-flags error, not the fix-cannot-have-a-value error,
because the incompatible-flags check comes first in the source. -/
theorem c10_incompatible_check_precedes_fix_type_check (f : RunFlags) (s : String)
    (hfix : f.fix = JSVal.str s) (hs : s ≠ "")
    (h : f.ignoreIncompatible ≠ JSVal.undef ∨ f.ignoreUnused ≠ JSVal.undef ∨
      f.ignoreMissing ≠ JSVal.undef ∨ f.ignoreUntracked ≠ JSVal.undef) :
    validateFlags f = some ValidationError.incompatibleFlags := by
  have hs' : (s == "") = false := by
    simp [hs]
  rcases h with h | h | h | h <;>
    simp [validateFlags, defaultedFix, hfix, JSVal.truthy, hs',
      JSVal.isUndefined_eq_false_of_ne h]

/-- Flags with fix holding a truthy string and ignore-missing explicitly
set. -/
def c10Flags : RunFlags :=
  { noFlags with fix := JSVal.str ("yes"), ignoreMissing := JSVal.bool true }

theorem c10_incompatible_check_precedes_fix_type_check_witness :
    c10Flags.fix = JSVal.str ("yes") ∧ ("yes" : String) ≠ "" ∧
    (c10Flags.ignoreIncompatible ≠ JSVal.undef ∨ c10Flags.ignoreUnused ≠ JSVal.undef ∨
      c10Flags.ignoreMissing ≠ JSVal.undef ∨ c10Flags.ignoreUntracked ≠ JSVal.undef) ∧
    validateFlags c10Flags = some ValidationError.incompatibleFlags :=
  ⟨by decide, by decide, by decide,
    c10_incompatible_check_precedes_fix_type_check c10Flags ("yes")
      (by decide) (by decide) (by decide)⟩

/-- Claim C5: when validation passes and the loaded config has no
translation paths, the run returns successfully right after the config load:
the only event is the config load (no stage sub-task runs), the exit code is
0 and the disposition is the normal return. -/
theorem c5_empty_translations_short_circuits (f : RunFlags) (env : Env)
    (hv : validateFlags f = none) (ht : env.translations = []) :
    runI18nCheck f env =
      { events := [RunEvent.configLoaded], reporter := [], exitCode := 0
        disposition := Disposition.ok } := by
  simp [runI18nCheck, hv, ht]

theorem c5_empty_translations_short_circuits_witness :
    validateFlags noFlags = none ∧ emptyEnv.translations = [] ∧
    runI18nCheck noFlags emptyEnv =
      { events := [RunEvent.configLoaded], reporter := [], exitCode := 0
        disposition := Disposition.ok } :=
  ⟨by decide, rfl,
    c5_empty_translations_short_circuits noFlags emptyEnv (by decide) rfl⟩

theorem catchBlock_listrError_aggregates (es rep : List String) (hrep : rep ≠ []) :
    catchBlock (listrError es) rep =
      { exitCode := 1
        disposition := Disposition.aggregateFail (String.intercalate ("\n\n") rep) } := by
  have hlen : rep.length ≠ 0 := by simpa using hrep
  simp [catchBlock, listrError, hlen]

/-- Claim C1: in every run in which the task list rejects with a run-level
error whose structured error set is non-empty (some stage collected at least
one failure) while the shared reporter has accumulated at least one entry,
the process exit code is set to 1 and the disposition is the single thrown
aggregate failure whose message is the reporter entries joined by blank
lines; the individual stage errors are not logged (the aggregateFail
disposition logs nothing individually, unlike loggedErrors). -/
theorem c1_reported_failure_aggregates_reporter (f : RunFlags) (env : Env)
    (hv : validateFlags f = none) (ht : env.translations ≠ [])
    (hrep : reporterAfterScan f env ≠ [])
    (herr : extractErrorsOf env ≠ [] ∨ compatErrorsOf env ≠ []) :
    (runI18nCheck f env).exitCode = 1 ∧
    (runI18nCheck f env).disposition =
      Disposition.aggregateFail
        (String.intercalate ("\n\n") (reporterAfterScan f env)) := by
  have hrun : runI18nCheck f env = runCore f env := by
    simp [runI18nCheck, hv, ht]
  rw [hrun]
  by_cases hE : extractErrorsOf env = []
  · have hC : compatErrorsOf env ≠ [] := by
      rcases herr with h | h
      · exact absurd hE h
      · exact h
    rw [runCore, if_pos hE, if_neg hC,
      catchBlock_listrError_aggregates (compatErrorsOf env) _ hrep]
    exact ⟨rfl, rfl⟩
  · rw [runCore, if_neg hE,
      catchBlock_listrError_aggregates (extractErrorsOf env) _ hrep]
    exact ⟨rfl, rfl⟩

/-- Environment for the C1 witness: one translation path, a scan failure on
the first source path, one failing extraction sub-task. -/
def c1Env : Env :=
  { translations := ["x-pack/plugins/translations/translations/zh-CN.json"]
    scanOutcome := fun p => if p == "./src" then some ("untracked message") else none
    extractOutcomes := [some ("extraction failed")]
    compatOutcome := fun _ => none }

theorem c1_reported_failure_aggregates_reporter_witness :
    validateFlags noFlags = none ∧ c1Env.translations ≠ [] ∧
    reporterAfterScan noFlags c1Env ≠ [] ∧
    (extractErrorsOf c1Env ≠ [] ∨ compatErrorsOf c1Env ≠ []) ∧
    ((runI18nCheck noFlags c1Env).exitCode = 1 ∧
      (runI18nCheck noFlags c1Env).disposition =
        Disposition.aggregateFail
          (String.intercalate ("\n\n") (reporterAfterScan noFlags c1Env))) :=
  ⟨by decide, by decide, by decide, by decide,
    c1_reported_failure_aggregates_reporter noFlags c1Env
      (by decide) (by decide) (by decide) (by decide)⟩

/-- Claim C7: when the run-level error carries a non-empty structured list
of sub-errors but the reporter holds no entry, the catch block sets the exit
code to 1 and logs each sub-error individually (loggedErrors disposition:
the run returns normally afterwards, neither the hard process exit nor a
thrown aggregate failure). -/
theorem c7_suberrors_logged_individually (err : JsError) (es : List String)
    (herr : err.errors = some es) (_hes : es ≠ []) :
    catchBlock err [] =
      { exitCode := 1, disposition := Disposition.loggedErrors es } := by
  simp [catchBlock, herr]

/-- A ListrError carrying two sub-errors, for the C7 witness. -/
def c7Error : JsError := listrError ["first failure", "second failure"]

theorem c7_suberrors_logged_individually_witness :
    c7Error.errors = some ["first failure", "second failure"] ∧
    (["first failure", "second failure"] : List String) ≠ [] ∧
    catchBlock c7Error [] =
      { exitCode := 1
        disposition := Disposition.loggedErrors ["first failure", "second failure"] } :=
  ⟨by decide, by decide,
    c7_suberrors_logged_individually c7Error ["first failure", "second failure"]
      (by decide) (by decide)⟩

/-- Claim C8: when the run-level error carries no structured error list at
all, the catch block logs it as an unhandled exception (the fixed line and
the error itself) and hard-exits the process at once (hardExit disposition,
the immediate process.exit of line 186), regardless of the reporter; this
path is distinct from the normal exit-code-1 returns (loggedErrors) and from
the thrown aggregate failure. -/
theorem c8_unhandled_error_hard_exits (err : JsError) (reporter : List String)
    (h : err.errors = none) :
    catchBlock err reporter =
      { exitCode := 1
        disposition := Disposition.hardExit [unhandledLog, err.message] } := by
  simp [catchBlock, h]

/-- An error without any errors list, for the C8 witness. -/
def c8Error : JsError :=
  { name := "TypeError", message := "boom", errors := none }

theorem c8_unhandled_error_hard_exits_witness :
    c8Error.errors = none ∧
    catchBlock c8Error ["a reporter entry"] =
      { exitCode := 1
        disposition := Disposition.hardExit [unhandledLog, "boom"] } :=
  ⟨by decide, c8_unhandled_error_hard_exits c8Error ["a reporter entry"] (by decide)⟩

theorem runCore_reporter (f : RunFlags) (env : Env) :
    (runCore f env).reporter = reporterAfterScan f env := by
  unfold runCore
  split_ifs <;> rfl

theorem runCore_events_prefixed (f : RunFlags) (env : Env) :
    ∃ rest, (runCore f env).events = preCompatEvents f env ++ rest := by
  unfold runCore
  split_ifs
  · exact ⟨compatEventsFor f env, rfl⟩
  · exact ⟨compatEventsFor f env, rfl⟩
  · exact ⟨[], (List.append_nil _).symm⟩

theorem compatTask_not_mem_preCompat (f : RunFlags) (env : Env) (p : String)
    (opts : IntegrateOptions) :
    RunEvent.compatTask p opts ∉ preCompatEvents f env := by
  by_cases hen : scanEnabledFor f <;>
    simp [preCompatEvents, scanEventsFor, extractEventsFor, hen]

/-- Claim C3: with the scan stage enabled, sub-tasks run one per source path
and a failing path is non-fatal. Modelled from the spec for the
extractUntrackedMessages collaborator (its module is not under src): a
failure is recorded in the shared reporter and the call resolves. For the
three hard-coded source paths, when only the second fails, the third is
still attempted and the final reporter holds exactly the one entry of the
second. -/
theorem c3_scan_failure_nonfatal (f : RunFlags) (env : Env) (e : String)
    (hv : validateFlags f = none) (ht : env.translations ≠ [])
    (hen : scanEnabledFor f = true)
    (h1 : env.scanOutcome ("./src") = none)
    (h2 : env.scanOutcome ("./packages") = some e)
    (h3 : env.scanOutcome ("./x-pack") = none) :
    RunEvent.scanTask ("./x-pack") ∈ (runI18nCheck f env).events ∧
    (runI18nCheck f env).reporter = [e] := by
  have hrun : runI18nCheck f env = runCore f env := by
    simp [runI18nCheck, hv, ht]
  have hmem : RunEvent.scanTask ("./x-pack") ∈ preCompatEvents f env := by
    simp [preCompatEvents, scanEventsFor, hen, srcCodePaths]
  constructor
  · rw [hrun]
    rcases runCore_events_prefixed f env with ⟨rest, hev⟩
    rw [hev]
    exact List.mem_append_left _ hmem
  · rw [hrun, runCore_reporter]
    simp [reporterAfterScan, hen, srcCodePaths, h1, h2, h3]

/-- Environment for the C3 witness: three source paths with only the second
failing, everything else succeeding. -/
def c3Env : Env :=
  { translations := ["translations/ja-JP.json"]
    scanOutcome := fun p => if p == "./packages" then some ("scan error") else none
    extractOutcomes := [none]
    compatOutcome := fun _ => none }

theorem c3_scan_failure_nonfatal_witness :
    validateFlags noFlags = none ∧ c3Env.translations ≠ [] ∧
    scanEnabledFor noFlags = true ∧
    c3Env.scanOutcome ("./src") = none ∧
    c3Env.scanOutcome ("./packages") = some ("scan error") ∧
    c3Env.scanOutcome ("./x-pack") = none ∧
    (RunEvent.scanTask ("./x-pack") ∈ (runI18nCheck noFlags c3Env).events ∧
      (runI18nCheck noFlags c3Env).reporter = ["scan error"]) :=
  ⟨by decide, by decide, by decide, by decide, by decide, by decide,
    c3_scan_failure_nonfatal noFlags c3Env ("scan error")
      (by decide) (by decide) (by decide) (by decide) (by decide) (by decide)⟩

/-- Claim C6: whenever the compatibility stage runs, there is one sub-task
per translation path, and every integrateLocaleFiles call receives options
computed from the flags exactly as the source does: source file is the
path, target file is the path under fix and absent otherwise, dryRun is the
negation of fix, and each pass-through flag is fix OR the truthiness of the
corresponding ignore flag. -/
theorem c6_compat_options_from_flags (f : RunFlags) (env : Env)
    (hv : validateFlags f = none) (ht : env.translations ≠ [])
    (hE : extractErrorsOf env = []) :
    (∀ p ∈ env.translations,
      RunEvent.compatTask p (integrateOptionsFor (defaultedFix f).truthy f p) ∈
        (runI18nCheck f env).events) ∧
    (∀ (p : String) (opts : IntegrateOptions),
      RunEvent.compatTask p opts ∈ (runI18nCheck f env).events →
        opts.sourceFileName = p ∧
        opts.targetFileName = (if (defaultedFix f).truthy then some p else none) ∧
        opts.dryRun = !(defaultedFix f).truthy ∧
        opts.ignoreIncompatible = ((defaultedFix f).truthy || f.ignoreIncompatible.truthy) ∧
        opts.ignoreUnused = ((defaultedFix f).truthy || f.ignoreUnused.truthy) ∧
        opts.ignoreMissing = ((defaultedFix f).truthy || f.ignoreMissing.truthy)) := by
  have hrun : runI18nCheck f env = runCore f env := by
    simp [runI18nCheck, hv, ht]
  have hev : (runCore f env).events = preCompatEvents f env ++ compatEventsFor f env := by
    unfold runCore
    rw [if_pos hE]
    by_cases hC : compatErrorsOf env = []
    · rw [if_pos hC]
    · rw [if_neg hC]
  rw [hrun, hev]
  constructor
  · intro p hp
    refine List.mem_append_right _ ?_
    simp only [compatEventsFor, List.mem_map]
    exact ⟨p, hp, rfl⟩
  · intro p opts hmem
    rcases List.mem_append.mp hmem with h | h
    · exact absurd h (compatTask_not_mem_preCompat f env p opts)
    · simp only [compatEventsFor, List.mem_map] at h
      rcases h with ⟨q, _, heq⟩
      rcases RunEvent.compatTask.inj heq with ⟨hq, hopts⟩
      subst hq
      rw [← hopts]
      simp [integrateOptionsFor]

/-- Environment for the C6 witness: two translation paths, all collaborator
calls succeeding. -/
def c6Env : Env :=
  { translations := ["translations/fr-FR.json", "translations/de-DE.json"]
    scanOutcome := fun _ => none
    extractOutcomes := [none]
    compatOutcome := fun _ => none }

/-- Flags for the C6 witness: fix set, which is compatible with validation
only when every ignore flag is absent. -/
def c6Flags : RunFlags := { noFlags with fix := JSVal.bool true }

theorem c6_compat_options_from_flags_witness :
    validateFlags c6Flags = none ∧ c6Env.translations ≠ [] ∧
    extractErrorsOf c6Env = [] ∧
    ((∀ p ∈ c6Env.translations,
      RunEvent.compatTask p (integrateOptionsFor (defaultedFix c6Flags).truthy c6Flags p) ∈
        (runI18nCheck c6Flags c6Env).events) ∧
    (∀ (p : String) (opts : IntegrateOptions),
      RunEvent.compatTask p opts ∈ (runI18nCheck c6Flags c6Env).events →
        opts.sourceFileName = p ∧
        opts.targetFileName = (if (defaultedFix c6Flags).truthy then some p else none) ∧
        opts.dryRun = !(defaultedFix c6Flags).truthy ∧
        opts.ignoreIncompatible =
          ((defaultedFix c6Flags).truthy || c6Flags.ignoreIncompatible.truthy) ∧
        opts.ignoreUnused = ((defaultedFix c6Flags).truthy || c6Flags.ignoreUnused.truthy) ∧
        opts.ignoreMissing =
          ((defaultedFix c6Flags).truthy || c6Flags.ignoreMissing.truthy))) :=
  ⟨by decide, by decide, by decide,
    c6_compat_options_from_flags c6Flags c6Env (by decide) (by decide) (by decide)⟩

/-- Environment for the C2 counterexample: two extraction sub-tasks, the
first failing and the second succeeding. -/
def c2Env : Env :=
  { translations := ["translations/fr-FR.json"]
    scanOutcome := fun _ => none
    extractOutcomes := [some ("first extraction sub-task failed"), none]
    compatOutcome := fun _ => none }

/-- Counterexample to claim C2 as stated. The extraction stage list is built
with exitOnError false (source line 160), so a failing sub-task does not
abort the remaining sub-tasks of that stage: with sub-task 0 failing,
sub-task 1 is still executed. -/
theorem c2_counterexample :
    c2Env.extractOutcomes = [some ("first extraction sub-task failed"), none] ∧
    RunEvent.extractTask 1 ∈ (runI18nCheck noFlags c2Env).events := by
  constructor
  · rfl
  · decide

/-- Claim C2 as amended: a failing extraction sub-task does not abort the
remaining sub-tasks of the extraction stage (every sub-task is executed and
the failures are collected, exitOnError false on line 160); the collected
failure surfaces as the rejection of the extraction stage, which aborts the
subsequent compatibility stage (outer list exitOnError true) and is handled
by the run-level catch block rather than crashing the run on the spot. -/
theorem c2_amended_extraction_continues (f : RunFlags) (env : Env)
    (hv : validateFlags f = none) (ht : env.translations ≠ [])
    (i : Nat) (hi : i < env.extractOutcomes.length) :
    RunEvent.extractTask i ∈ (runI18nCheck f env).events ∧
    (extractErrorsOf env ≠ [] →
      ∀ (p : String) (opts : IntegrateOptions),
        RunEvent.compatTask p opts ∉ (runI18nCheck f env).events) := by
  have hrun : runI18nCheck f env = runCore f env := by
    simp [runI18nCheck, hv, ht]
  have hmem : RunEvent.extractTask i ∈ preCompatEvents f env := by
    refine List.mem_cons_of_mem _ (List.mem_append_right _ ?_)
    simp only [extractEventsFor, List.mem_map, List.mem_range]
    exact ⟨i, hi, rfl⟩
  constructor
  · rw [hrun]
    rcases runCore_events_prefixed f env with ⟨rest, hev⟩
    rw [hev]
    exact List.mem_append_left _ hmem
  · intro hE p opts
    rw [hrun]
    unfold runCore
    rw [if_neg hE]
    exact compatTask_not_mem_preCompat f env p opts

theorem c2_amended_extraction_continues_witness :
    validateFlags noFlags = none ∧ c2Env.translations ≠ [] ∧
    1 < c2Env.extractOutcomes.length ∧
    (RunEvent.extractTask 1 ∈ (runI18nCheck noFlags c2Env).events ∧
      (extractErrorsOf c2Env ≠ [] →
        ∀ (p : String) (opts : IntegrateOptions),
          RunEvent.compatTask p opts ∉ (runI18nCheck noFlags c2Env).events)) :=
  ⟨by decide, by decide, by decide,
    c2_amended_extraction_continues noFlags c2Env (by decide) (by decide) 1 (by decide)⟩

end I18nCheck

namespace PngCreateJob

/-- Claim C9: createJob encrypts the headers first and validates the
relative URL second (the step trace is exactly those two steps in that
order, the encryption happening even when validation then rejects), and
when the URL is valid it returns the payload whose objectType, title,
relativeUrl, browserTimezone and layout copy the inputs, whose headers
field is the encrypted serialization of the input headers, whose basePath
comes from the request, and whose forceNow is the timestamp taken during
the call. -/
theorem c9_createJob_marshals_inputs (encrypt : String → String)
    (urlOk : String → Bool) (now : String) (params : JobParamsPNG)
    (headers : String) (request : RequestFacade)
    (hok : urlOk params.relativeUrl = true) :
    (createJob encrypt urlOk now params headers request).1 =
      [CreateJobStep.encryptHeaders,
        CreateJobStep.validateUrlsCall [params.relativeUrl]] ∧
    (createJob encrypt urlOk now params headers request).2 =
      some
        { objectType := params.objectType
          title := params.title
          relativeUrl := params.relativeUrl
          headers := encrypt headers
          browserTimezone := params.browserTimezone
          layout := params.layout
          basePath := request.basePath
          forceNow := now } := by
  constructor <;> simp [createJob, hok]

/-- Concrete job parameters for the C9 witness. -/
def c9Params : JobParamsPNG :=
  ⟨"visualization", "My Viz", "/app/kibana#/visualize", "UTC", "preserved"⟩

/-- Concrete request for the C9 witness. -/
def c9Request : RequestFacade := ⟨"/s/space1"⟩

/-- Concrete encryption stand-in for the C9 witness. -/
def c9Encrypt : String → String := fun s => String.append ("encrypted:") s

/-- URL validity predicate for the C9 witness: every URL passes. -/
def c9UrlOk : String → Bool := fun _ => true

theorem c9_createJob_marshals_inputs_witness :
    c9UrlOk c9Params.relativeUrl = true ∧
    ((createJob c9Encrypt c9UrlOk ("2019-05-10T00:00:00.000Z") c9Params
        ("cookie-header") c9Request).1 =
      [CreateJobStep.encryptHeaders,
        CreateJobStep.validateUrlsCall [c9Params.relativeUrl]] ∧
    (createJob c9Encrypt c9UrlOk ("2019-05-10T00:00:00.000Z") c9Params
        ("cookie-header") c9Request).2 =
      some
        { objectType := c9Params.objectType
          title := c9Params.title
          relativeUrl := c9Params.relativeUrl
          headers := c9Encrypt ("cookie-header")
          browserTimezone := c9Params.browserTimezone
          layout := c9Params.layout
          basePath := c9Request.basePath
          forceNow := "2019-05-10T00:00:00.000Z" }) :=
  ⟨rfl,
    c9_createJob_marshals_inputs c9Encrypt c9UrlOk ("2019-05-10T00:00:00.000Z")
      c9Params ("cookie-header") c9Request rfl⟩

end PngCreateJob
